import Mathlib

/-!
Shallow embedding of the `useWebSocket` React hook of the
camera-websocket-ui repository (the current version of the hook in the
source tree: the one with heartbeat ping/pong, close-code-1000 handling
and immediate resolution of fire-and-forget commands).

The hook's mutable refs and React state cells become fields of a single
`ClientState` record; each callback of the hook (`connect`, `disconnect`,
`sendMessage`, `subscribe`, the WebSocket `onopen` / `onmessage` /
`onclose` handlers, and the scheduled timer callbacks) becomes a pure
state-transition function.  A run of the client is a fold of a `step`
function over an explicit list of `Event`s; real time does not appear,
the relative order of timer firings and frame arrivals is encoded by the
order of events in the list.  Wall-clock data (`Date.now()` ids and
timestamps of log entries) is omitted from `LogEntry`; everything else is
translated field by field from the source.
-/

namespace CameraWS

/-- One entry of the bounded event log (`EventLog` in `types/camera.ts`);
the wall-clock `id` and `timestamp` fields are not modelled. -/
structure LogEntry where
  type : String
  message : String
  camera_id : Option Nat
deriving DecidableEq, Repr

/-- The body of `addLog`: `setEventLogs((prev) => [newLog, ...prev].slice(0, 100))`. -/
def addLogEntry (e : LogEntry) (prev : List LogEntry) : List LogEntry :=
  (e :: prev).take 100

/-- A sequence of `addLog` calls, earliest first. -/
def appendAll (es : List LogEntry) (l : List LogEntry) : List LogEntry :=
  es.foldl (fun acc e => addLogEntry e acc) l

/-- An inbound or outbound wire message (`WebSocketMessage`): a tagged
record with the fields the hook reads.  A field that is absent from a
concrete JSON message is `none` (JS `undefined`). -/
structure Frame where
  type : Option String
  command : Option String
  message : Option String
  «alias» : Option String
  model : Option String
  error : Option String
  camera_id : Option Nat
  synced_settings : List (String × String)
  setting_type : Option String
  old_value : Option String
  new_value : Option String
deriving DecidableEq, Repr

/-- The empty message; concrete frames override the fields they carry. -/
def Frame.nil : Frame :=
  ⟨none, none, none, none, none, none, none, [], none, none, none⟩

/-- JS template-literal rendering of a possibly-absent string field
(`undefined` prints as "undefined"). -/
def jsStr : Option String → String
  | some s => s
  | none => "undefined"

/-- JS `a || b` on two possibly-absent string fields (`undefined` and the
empty string are falsy). -/
def jsOr (a b : Option String) : Option String :=
  match a with
  | some s => if s = "" then b else some s
  | none => b

/-- The static command-to-response-tag table (`getResponseType`);
`responseMap[command] || null`. -/
def getResponseType (command : String) : Option String :=
  match command with
  | "discover" => some "discovery_result"
  | "connect" => some "connect_result"
  | "disconnect" => some "disconnect_result"
  | "status" => some "status"
  | "start_continuous" => some "continuous_result"
  | "stop_continuous" => some "continuous_result"
  | "single_shot" => some "shot_result"
  | "set_transfer_path" => some "transfer_path_result"
  | "get_camera_settings" => some "camera_settings_result"
  | "set_camera_setting" => some "setting_result"
  | "sync_master_settings" => some "sync_result"
  | "enable_auto_sync" => some "auto_sync_result"
  | "get_available_settings" => some "available_settings_result"
  | _ => none

/-- An entry of the `messageHandlers` map.  The hook stores closures; the
two closures that ever enter the map are a persistent subscriber handler
(registered by `subscribe`, identified here by a subscriber id) and the
one-shot response handler that `sendMessage` installs for the request
`reqId` under key `responseType` (on invocation it deletes its own map
entry and resolves the request's promise). -/
inductive Handler
  | subscriber (sid : Nat)
  | oneShot (reqId : Nat) (responseType : String)
deriving DecidableEq, Repr

/-- `Map.delete`: a JS `Map` holds at most one entry per key. -/
def mapDelete (m : List (String × Handler)) (k : String) : List (String × Handler) :=
  m.filter (fun p => p.1 != k)

/-- `Map.set`: replaces any entry under the key.  JS keeps the original
insertion position of an existing key; the hook only ever calls `get`,
`has`, `set` and `delete` on this map, never iterates it, so position is
unobservable and the entry is kept at the front. -/
def mapSet (m : List (String × Handler)) (k : String) (v : Handler) :
    List (String × Handler) :=
  (k, v) :: mapDelete m k

/-- `Map.get` (`undefined` becomes `none`). -/
def mapGet (m : List (String × Handler)) (k : String) : Option Handler :=
  (m.find? (fun p => p.1 == k)).map (fun p => p.2)

/-- `Map.has`. -/
def mapHas (m : List (String × Handler)) (k : String) : Bool :=
  (mapGet m k).isSome

/-- What a `sendMessage` promise can be fulfilled with: the matched inbound
frame, or the synthetic `{ success: true }` acknowledgment. -/
inductive Response
  | payload (f : Frame)
  | successAck
deriving DecidableEq, Repr

/-- The state of one promise returned by `sendMessage`. -/
inductive PromiseState
  | pending
  | resolved (r : Response)
  | rejected (msg : String)
deriving DecidableEq, Repr

/-- A promise settles at most once: `resolve`/`reject` after the first
settlement is a no-op. -/
def settleOne (r : PromiseState) : PromiseState → PromiseState
  | .pending => r
  | s => s

/-- Settle the promise `reqId` in a promise table (first settlement wins). -/
def settleList (ps : List (Nat × PromiseState)) (reqId : Nat)
    (r : PromiseState) : List (Nat × PromiseState) :=
  ps.map (fun p => if p.1 = reqId then (p.1, settleOne r p.2) else p)

/-- Look up the state of promise `reqId`. -/
def lookupPromise (ps : List (Nat × PromiseState)) (reqId : Nat) :
    Option PromiseState :=
  (ps.find? (fun p => p.1 == reqId)).map (fun p => p.2)

/-- `WebSocket.readyState` values the hook compares against. -/
inductive WSReady
  | CONNECTING
  | OPEN
  | CLOSED
deriving DecidableEq, Repr

/-- The maximum reconnect attempt count (`maxReconnectAttempts = 5`). -/
def maxReconnectAttempts : Nat := 5

/-- All mutable state of one `useWebSocket` instance: the four React state
cells (`isConnected`, `isConnecting`, `connectionError`, `eventLogs`) and
the refs (`ws`, `messageHandlers`, `reconnectAttempts`, `reconnectTimeout`,
`pingInterval`).  `promises` tracks every promise `sendMessage` has
returned; `pendingTimeouts` tracks the scheduled 10-second response
timers (reqId, responseType); `sent` records transmitted frames newest
first; `subscriberCalls` records each invocation of a persistent
subscriber handler newest first. -/
structure ClientState where
  isConnected : Bool
  isConnecting : Bool
  connectionError : Option String
  eventLogs : List LogEntry
  ws : Option WSReady
  messageHandlers : List (String × Handler)
  reconnectAttempts : Nat
  reconnectTimeout : Option Nat
  pingInterval : Bool
  promises : List (Nat × PromiseState)
  pendingTimeouts : List (Nat × String)
  sent : List Frame
  subscriberCalls : List (Nat × Frame)
deriving DecidableEq, Repr

/-- The state of a freshly mounted hook. -/
def initState : ClientState :=
  ⟨false, false, none, [], none, [], 0, none, false, [], [], [], []⟩

/-- `addLog(type, message, camera_id)`. -/
def addLog (s : ClientState) (type message : String) (camera_id : Option Nat) :
    ClientState :=
  { s with eventLogs := addLogEntry ⟨type, message, camera_id⟩ s.eventLogs }

/-- `startPing()`: clears any running interval and starts a fresh one. -/
def startPing (s : ClientState) : ClientState :=
  { s with pingInterval := true }

/-- `stopPing()`: clears the interval; idempotent. -/
def stopPing (s : ClientState) : ClientState :=
  { s with pingInterval := false }

/-- `connect()`: no-op when the socket is already open; otherwise enters
the connecting state and opens a fresh transport. -/
def connect (s : ClientState) : ClientState :=
  if s.ws = some WSReady.OPEN then s
  else
    { s with isConnecting := true, connectionError := none,
             ws := some WSReady.CONNECTING }

/-- The `onopen` handler: the socket has become OPEN; marks connected,
resets the attempt counter, logs, and starts the heartbeat. -/
def handleOpen (s : ClientState) : ClientState :=
  let s1 := { s with ws := some WSReady.OPEN, isConnected := true,
                     isConnecting := false, connectionError := none,
                     reconnectAttempts := 0 }
  startPing (addLog s1 "success" "Connected to camera server" none)

/-- The sequence of well-known-tag log appends at the top of `onmessage`
(each `if (data.type === ...) addLog(...)` block, in source order),
expressed as the effect on the `eventLogs` list: every branch only
appends a log entry, so the stages are composed directly on the list. -/
def logWellKnownList (f : Frame) (logs : List LogEntry) : List LogEntry :=
  let logs := if f.type = some "welcome" then
    addLogEntry ⟨"info", "Welcome: " ++ jsStr f.message, none⟩ logs else logs
  let logs := if f.type = some "camera_connected" then
    addLogEntry ⟨"success", "Camera connected: " ++ jsStr (jsOr f.«alias» f.model),
      f.camera_id⟩ logs else logs
  let logs := if f.type = some "camera_disconnected" then
    addLogEntry ⟨"warning", "Camera disconnected: " ++ jsStr f.«alias»,
      f.camera_id⟩ logs else logs
  let logs := if f.type = some "image_captured" then
    addLogEntry ⟨"success", "Image captured by " ++ jsStr f.«alias»,
      f.camera_id⟩ logs else logs
  let logs := if f.type = some "camera_error" ∨ f.type = some "capture_error" then
    addLogEntry ⟨"error", jsStr f.«alias» ++ ": " ++ jsStr f.error,
      f.camera_id⟩ logs else logs
  let logs := if f.type = some "settings_synchronized" then
    addLogEntry ⟨"success", "Settings synchronized: " ++
      String.intercalate ", "
        (f.synced_settings.map (fun p => p.1 ++ ": " ++ p.2)), none⟩ logs
    else logs
  let logs := if f.type = some "setting_changed" then
    addLogEntry ⟨"info", jsStr f.«alias» ++ ": " ++ jsStr f.setting_type ++
      " changed from " ++ jsStr f.old_value ++ " to " ++ jsStr f.new_value,
      f.camera_id⟩ logs else logs
  logs

/-- The well-known-tag log appends of `onmessage` as a state transition:
only `eventLogs` changes. -/
def logWellKnown (s : ClientState) (f : Frame) : ClientState :=
  { s with eventLogs := logWellKnownList f s.eventLogs }

/-- The handler invocation at the bottom of `onmessage`:
`messageHandlers.current.get(data.type)` and, when a handler is found,
its body.  A subscriber handler is an opaque caller callback, recorded in
`subscriberCalls`; the one-shot handler installed by `sendMessage`
deletes its map entry and resolves the request's promise with the frame. -/
def dispatchHandler (s : ClientState) (f : Frame) : ClientState :=
  match f.type with
  | none => s
  | some t =>
    match mapGet s.messageHandlers t with
    | none => s
    | some (.subscriber sid) =>
        { s with subscriberCalls := (sid, f) :: s.subscriberCalls }
    | some (.oneShot reqId responseType) =>
        { s with
          messageHandlers := mapDelete s.messageHandlers responseType,
          promises := (settleList s.promises reqId
            (.resolved (.payload f))) }

/-- The `onmessage` handler on an already-parsed frame: pong frames
return before any logging or dispatch; otherwise the well-known-tag log
appends run, then the registered handler (if any) is invoked. -/
def handleMessage (s : ClientState) (f : Frame) : ClientState :=
  if f.type = some "pong" ∨ f.command = some "pong" then s
  else dispatchHandler (logWellKnown s f) f

/-- The `onclose` handler.  The socket is now closed; connection flags
drop and the heartbeat stops.  A non-1000 close code with attempts under
the cap logs a warning and schedules the reconnect timer with delay
`2 ^ attempts * 1000` ms; otherwise, at or over the cap, the terminal
error is reported, and under the cap (normal closure) an info entry is
logged. -/
def handleClose (s : ClientState) (code : Nat) (reason : String) : ClientState :=
  let s1 := stopPing { s with ws := s.ws.map (fun _ => WSReady.CLOSED),
                              isConnected := false, isConnecting := false }
  if code ≠ 1000 ∧ s1.reconnectAttempts < maxReconnectAttempts then
    let delay := 2 ^ s1.reconnectAttempts * 1000
    let s2 := addLog s1 "warning"
      ("Connection lost (" ++ (if reason = "" then "Unknown reason" else reason)
        ++ "). Reconnecting in " ++ toString (delay / 1000) ++ "s...") none
    { s2 with reconnectTimeout := some delay }
  else if s1.reconnectAttempts ≥ maxReconnectAttempts then
    addLog { s1 with connectionError := some "Maximum reconnection attempts reached" }
      "error" "Connection failed after multiple attempts" none
  else
    addLog s1 "info" "Connection closed normally" none

/-- The reconnect timer callback scheduled by `onclose`
(`reconnectAttempts.current++; connect();`); firing consumes the timer. -/
def fireReconnectTimer (s : ClientState) : ClientState :=
  match s.reconnectTimeout with
  | none => s
  | some _ =>
      connect { s with reconnectTimeout := none,
                       reconnectAttempts := s.reconnectAttempts + 1 }

/-- `disconnect()`: clears the reconnect timer, stops the heartbeat,
closes the socket with code 1000 ("User disconnect") and nulls the ref,
drops the connection flags, resets the attempt counter and logs.  (The
transport later fires the close event with code 1000; in a run that is a
subsequent `wsClose 1000` event.) -/
def disconnect (s : ClientState) : ClientState :=
  let s1 := stopPing { s with reconnectTimeout := none }
  let s2 := { s1 with ws := none }
  addLog { s2 with isConnected := false, isConnecting := false,
                   reconnectAttempts := 0 }
    "info" "Disconnected from camera server" none

/-- `sendMessage(message)`, with `reqId` naming the returned promise.
Rejects without transmitting when the socket is not open.  Otherwise the
frame is transmitted; a non-ping command with a mapped response tag
installs the one-shot handler under that tag and schedules the 10-second
timer; every other message resolves at once with `{ success: true }`. -/
def sendMessage (s : ClientState) (msg : Frame) (reqId : Nat) : ClientState :=
  let s0 := { s with promises := (reqId, PromiseState.pending) :: s.promises }
  if s0.ws ≠ some WSReady.OPEN then
    { s0 with promises := (settleList s0.promises reqId
        (.rejected "WebSocket is not connected")) }
  else
    let s1 := { s0 with sent := msg :: s0.sent }
    match msg.command with
    | some c =>
      if c ≠ "ping" then
        match getResponseType c with
        | some responseType =>
            { s1 with
              messageHandlers := mapSet s1.messageHandlers responseType
                (.oneShot reqId responseType),
              pendingTimeouts := (reqId, responseType) :: s1.pendingTimeouts }
        | none =>
            { s1 with promises := (settleList s1.promises reqId
                (.resolved .successAck)) }
      else
        { s1 with promises := (settleList s1.promises reqId
            (.resolved .successAck)) }
    | none =>
        { s1 with promises := (settleList s1.promises reqId
            (.resolved .successAck)) }

/-- The 10-second response timer scheduled by `sendMessage`: when it
fires, a still-present handler under the response tag is deleted and the
promise rejects with "Request timeout"; with no handler present the
callback does nothing.  Firing consumes the scheduled timer; an
unscheduled `(reqId, responseType)` pair is a no-op. -/
def fireSendTimer (s : ClientState) (reqId : Nat) (responseType : String) :
    ClientState :=
  if (reqId, responseType) ∈ s.pendingTimeouts then
    let s1 := { s with
      pendingTimeouts := s.pendingTimeouts.erase (reqId, responseType) }
    if mapHas s1.messageHandlers responseType then
      { s1 with
        messageHandlers := mapDelete s1.messageHandlers responseType,
        promises := settleList s1.promises reqId (.rejected "Request timeout") }
    else s1
  else s

/-- `subscribe(messageType, handler)`: registers the persistent handler
`sid` under the tag (replacing any present entry, as `Map.set` does). -/
def subscribe (s : ClientState) (messageType : String) (sid : Nat) : ClientState :=
  { s with messageHandlers := (mapSet s.messageHandlers messageType
      (.subscriber sid)) }

/-- The unsubscribe capability returned by `subscribe`: deletes whatever
entry is under the tag. -/
def unsubscribe (s : ClientState) (messageType : String) : ClientState :=
  { s with messageHandlers := mapDelete s.messageHandlers messageType }

/-- The heartbeat interval callback: with the interval running and the
socket open it transmits `{ command: "ping" }`. -/
def firePing (s : ClientState) : ClientState :=
  if s.pingInterval then
    if s.ws = some WSReady.OPEN then
      { s with sent := { Frame.nil with command := some "ping" } :: s.sent }
    else s
  else s

/-- The externally observable events of one client: API calls, socket
callbacks and timer firings.  Their order in a run encodes real-time
order. -/
inductive Event
  | connectCall
  | wsOpen
  | wsMessage (f : Frame)
  | wsClose (code : Nat) (reason : String)
  | reconnectFire
  | sendCall (msg : Frame) (reqId : Nat)
  | sendTimerFire (reqId : Nat) (responseType : String)
  | subscribeCall (messageType : String) (sid : Nat)
  | unsubscribeCall (messageType : String)
  | disconnectCall
  | pingFire
deriving DecidableEq, Repr

/-- One step of the client.  The socket callbacks `wsOpen` and
`wsMessage` fire only on a live socket in the matching ready state; the
close callback runs even after `disconnect` nulled the ref (it is
attached to the socket object, and its body never reads the ref). -/
def step (s : ClientState) : Event → ClientState
  | .connectCall => connect s
  | .wsOpen => if s.ws = some WSReady.CONNECTING then handleOpen s else s
  | .wsMessage f => if s.ws = some WSReady.OPEN then handleMessage s f else s
  | .wsClose code reason => handleClose s code reason
  | .reconnectFire => fireReconnectTimer s
  | .sendCall msg reqId => sendMessage s msg reqId
  | .sendTimerFire reqId responseType => fireSendTimer s reqId responseType
  | .subscribeCall messageType sid => subscribe s messageType sid
  | .unsubscribeCall messageType => unsubscribe s messageType
  | .disconnectCall => disconnect s
  | .pingFire => firePing s

/-- A run of the client over a list of events. -/
def run (s : ClientState) (es : List Event) : ClientState :=
  es.foldl step s

/-- Is this handler the one-shot waiter of request `reqId`? -/
def isWaiterFor (reqId : Nat) : Handler → Bool
  | .oneShot r _ => r == reqId
  | .subscriber _ => false

/-- Does the handler map hold a one-shot waiter for request `reqId`? -/
def hasWaiterFor (m : List (String × Handler)) (reqId : Nat) : Bool :=
  m.any (fun p => isWaiterFor reqId p.2)

/-- Is a 10-second response timer for request `reqId` still scheduled? -/
def hasTimerFor (l : List (Nat × String)) (reqId : Nat) : Bool :=
  l.any (fun q => q.1 == reqId)

/-! Concrete frames and reachable states used by the concrete theorems. -/

/-- The outbound `{ command: "status" }` frame. -/
def statusCmd : Frame := { Frame.nil with command := some "status" }

/-- An inbound `{ type: "status" }` reply frame. -/
def statusFrame : Frame := { Frame.nil with type := some "status" }

/-- The outbound `{ command: "single_shot" }` frame. -/
def shotCmd : Frame := { Frame.nil with command := some "single_shot" }

/-- An inbound `{ type: "shot_result" }` reply frame. -/
def shotFrame : Frame := { Frame.nil with type := some "shot_result" }

/-- An inbound heartbeat acknowledgment `{ type: "pong" }`. -/
def pongFrame : Frame := { Frame.nil with type := some "pong" }

/-- The outbound heartbeat `{ command: "ping" }`. -/
def pingCmd : Frame := { Frame.nil with command := some "ping" }

/-- A freshly connected client: `connect()` followed by the open event. -/
def connectedState : ClientState :=
  run initState [Event.connectCall, Event.wsOpen]

/-- A connected client with one outstanding `status` request. -/
def c1Pre : ClientState :=
  run connectedState [Event.sendCall statusCmd 0]

/-- The client of `c1Pre` after an abnormal transport close. -/
def c1State : ClientState :=
  run c1Pre [Event.wsClose 1006 "network error"]

/-- A connected client where a persistent `status` subscriber (id 7) was
registered, then a `status` command was sent, then the `status` reply
arrived. -/
def c2State : ClientState :=
  run connectedState [Event.subscribeCall "status" 7,
    Event.sendCall statusCmd 0, Event.wsMessage statusFrame]

/-- Two concurrent `single_shot` requests (promises 0 and 1), then the
`shot_result` reply arrives, then both 10-second timers fire. -/
def c3aState : ClientState :=
  run connectedState [Event.sendCall shotCmd 0, Event.sendCall shotCmd 1,
    Event.wsMessage shotFrame, Event.sendTimerFire 0 "shot_result",
    Event.sendTimerFire 1 "shot_result"]

/-- Two concurrent `single_shot` requests (promises 0 and 1), no reply
ever arrives, and both 10-second timers fire. -/
def c3bState : ClientState :=
  run connectedState [Event.sendCall shotCmd 0, Event.sendCall shotCmd 1,
    Event.sendTimerFire 0 "shot_result", Event.sendTimerFire 1 "shot_result"]

/-- A client that failed its initial attempt and then exhausted all five
reconnect attempts (each attempt closes abnormally and its backoff timer
fires). -/
def exhaustedState : ClientState :=
  run initState [Event.connectCall, Event.wsClose 1006 "", Event.reconnectFire,
    Event.wsClose 1006 "", Event.reconnectFire, Event.wsClose 1006 "",
    Event.reconnectFire, Event.wsClose 1006 "", Event.reconnectFire,
    Event.wsClose 1006 "", Event.reconnectFire]

/-! Helper lemmas about the handler map and the promise table. -/

/-! Helper lemmas about the bounded event log. -/

theorem take_append_take (xs ys : List LogEntry) (n : Nat) :
    (xs ++ ys.take n).take n = (xs ++ ys).take n := by
  rw [List.take_append_eq_append_take, List.take_append_eq_append_take,
      List.take_take, Nat.min_eq_left (Nat.sub_le n xs.length)]

theorem appendAll_eq (es : List LogEntry) (l : List LogEntry)
    (hl : l.length ≤ 100) : appendAll es l = (es.reverse ++ l).take 100 := by
  induction es generalizing l with
  | nil => simp [appendAll, List.take_of_length_le hl]
  | cons e es ih =>
      have h1 : (addLogEntry e l).length ≤ 100 := by
        simp [addLogEntry]
      have h2 := ih (addLogEntry e l) h1
      simp only [appendAll, List.foldl_cons] at h2 ⊢
      rw [h2, addLogEntry, take_append_take, List.reverse_cons, List.append_assoc,
          List.singleton_append]

theorem mapGet_mapSet_self (m : List (String × Handler)) (k : String)
    (v : Handler) : mapGet (mapSet m k v) k = some v := by
  simp [mapGet, mapSet]

theorem mapGet_mapDelete_self (m : List (String × Handler)) (k : String) :
    mapGet (mapDelete m k) k = none := by
  have h : List.find? (fun p => p.1 == k) (List.filter (fun p => p.1 != k) m)
      = none := by
    rw [List.find?_eq_none]
    intro p hp
    simp only [List.mem_filter, bne_iff_ne, ne_eq] at hp
    simp [hp.2]
  simp [mapGet, mapDelete, h]

theorem mapHas_mapSet_self (m : List (String × Handler)) (k : String)
    (v : Handler) : mapHas (mapSet m k v) k = true := by
  simp [mapHas, mapGet_mapSet_self]

theorem mapHas_mapDelete_self (m : List (String × Handler)) (k : String) :
    mapHas (mapDelete m k) k = false := by
  simp [mapHas, mapGet_mapDelete_self]

theorem lookupPromise_cons_self (ps : List (Nat × PromiseState)) (reqId : Nat)
    (st : PromiseState) : lookupPromise ((reqId, st) :: ps) reqId = some st := by
  simp [lookupPromise]

theorem lookupPromise_settleList (ps : List (Nat × PromiseState)) (reqId : Nat)
    (r : PromiseState) :
    lookupPromise (settleList ps reqId r) reqId
      = (lookupPromise ps reqId).map (settleOne r) := by
  induction ps with
  | nil => rfl
  | cons p rest ih =>
      by_cases h : p.1 = reqId
      · simp [settleList, lookupPromise, h]
      · simp only [settleList, List.map_cons, if_neg h]
        simp only [settleList] at ih
        simpa [lookupPromise, List.find?_cons, h] using ih

/-! Projection facts: which fields each operation leaves untouched. -/

theorem logWellKnown_preserves (s : ClientState) (f : Frame) :
    (logWellKnown s f).messageHandlers = s.messageHandlers ∧
    (logWellKnown s f).promises = s.promises ∧
    (logWellKnown s f).subscriberCalls = s.subscriberCalls ∧
    (logWellKnown s f).pendingTimeouts = s.pendingTimeouts ∧
    (logWellKnown s f).ws = s.ws :=
  ⟨rfl, rfl, rfl, rfl, rfl⟩

theorem handleClose_preserves (s : ClientState) (code : Nat) (reason : String) :
    (handleClose s code reason).messageHandlers = s.messageHandlers ∧
    (handleClose s code reason).promises = s.promises ∧
    (handleClose s code reason).pendingTimeouts = s.pendingTimeouts ∧
    (handleClose s code reason).subscriberCalls = s.subscriberCalls := by
  simp only [handleClose, stopPing, addLog]
  split_ifs <;> exact ⟨rfl, rfl, rfl, rfl⟩

theorem sendMessage_ws (s : ClientState) (msg : Frame) (reqId : Nat) :
    (sendMessage s msg reqId).ws = s.ws := by
  simp only [sendMessage]
  split_ifs
  · rfl
  · cases msg.command with
    | none => rfl
    | some c =>
        simp only
        split_ifs
        · cases getResponseType c <;> rfl
        · rfl

theorem sendMessage_subscriberCalls (s : ClientState) (msg : Frame)
    (reqId : Nat) : (sendMessage s msg reqId).subscriberCalls = s.subscriberCalls := by
  simp only [sendMessage]
  split_ifs
  · rfl
  · cases msg.command with
    | none => rfl
    | some c =>
        simp only
        split_ifs
        · cases getResponseType c <;> rfl
        · rfl

theorem fireSendTimer_ws (s : ClientState) (reqId : Nat) (rt : String) :
    (fireSendTimer s reqId rt).ws = s.ws := by
  simp only [fireSendTimer]
  split_ifs <;> rfl

theorem mapGet_mapSet_ne (m : List (String × Handler)) (k k' : String)
    (v : Handler) (h : k' ≠ k) : mapGet (mapSet m k v) k' = mapGet m k' := by
  have hk : (k == k') = false := by simp [Ne.symm h]
  simp only [mapGet, mapSet, List.find?_cons, hk]
  induction m with
  | nil => rfl
  | cons p rest ih =>
      by_cases hp : p.1 = k
      · simp [mapDelete, List.filter_cons, hp, Ne.symm h]
        simpa [mapDelete] using ih
      · by_cases hp' : p.1 = k'
        · simp [mapDelete, List.filter_cons, hp, hp', List.find?_cons, h]
        · simp only [mapDelete, List.filter_cons] at ih ⊢
          simp [hp, hp', List.find?_cons] at ih ⊢
          exact ih

theorem mapGet_mapDelete_ne (m : List (String × Handler)) (k k' : String)
    (h : k' ≠ k) : mapGet (mapDelete m k) k' = mapGet m k' := by
  induction m with
  | nil => rfl
  | cons p rest ih =>
      by_cases hp : p.1 = k
      · simp only [mapGet, mapDelete, List.filter_cons] at ih ⊢
        simp [hp, Ne.symm h, List.find?_cons] at ih ⊢
        exact ih
      · by_cases hp' : p.1 = k'
        · simp [mapGet, mapDelete, List.filter_cons, hp, hp', List.find?_cons, h]
        · simp only [mapGet, mapDelete, List.filter_cons] at ih ⊢
          simp [hp, hp', List.find?_cons] at ih ⊢
          exact ih

theorem lookupPromise_cons_ne (ps : List (Nat × PromiseState)) (i j : Nat)
    (st : PromiseState) (h : j ≠ i) :
    lookupPromise ((i, st) :: ps) j = lookupPromise ps j := by
  simp [lookupPromise, List.find?_cons, Ne.symm h]

theorem lookupPromise_settleList_ne (ps : List (Nat × PromiseState)) (i j : Nat)
    (r : PromiseState) (h : j ≠ i) :
    lookupPromise (settleList ps i r) j = lookupPromise ps j := by
  induction ps with
  | nil => rfl
  | cons p rest ih =>
      by_cases hp : p.1 = i
      · simp only [settleList, List.map_cons, if_pos hp]
        simp only [settleList] at ih
        rw [← hp] at h
        simp [lookupPromise, List.find?_cons, Ne.symm h] at ih ⊢
        exact ih
      · simp only [settleList, List.map_cons, if_neg hp]
        simp only [settleList] at ih
        by_cases hj : p.1 = j
        · simp [lookupPromise, List.find?_cons, hj]
        · simp [lookupPromise, List.find?_cons, hj] at ih ⊢
          exact ih

theorem lookupPromise_settle_fresh (ps : List (Nat × PromiseState))
    (reqId : Nat) (r : PromiseState) :
    lookupPromise (settleList ((reqId, PromiseState.pending) :: ps) reqId r)
      reqId = some r := by
  rw [lookupPromise_settleList, lookupPromise_cons_self]
  rfl

/-!
Claim C9.  For every sequence of `n` `addLog` calls, the event log holds
exactly `min(n, 100)` entries, newest first; in particular 150 appends
leave the 100 most recent entries, and no append can push the log past
100 entries.
-/

/-- C9: after any sequence of appends starting from the empty log, the
log is exactly the (up to) 100 most recent entries in newest-first
order, its length is `min n 100`, and a single append never produces
more than 100 entries from any list. -/
theorem eventLog_capacity_newest_first (es : List LogEntry) :
    appendAll es [] = es.reverse.take 100 ∧
    (appendAll es []).length = min es.length 100 ∧
    ∀ (e : LogEntry) (l : List LogEntry), (addLogEntry e l).length ≤ 100 := by
  have h := appendAll_eq es [] (by simp)
  refine ⟨by simpa using h, ?_, ?_⟩
  · rw [h]
    simp [Nat.min_comm]
  · intro e l
    simp [addLogEntry]

/-!
Claim C8.  A frame recognized as a heartbeat acknowledgment (`type` or
`command` equal to "pong") is dropped by `onmessage` before any log
append and before any handler invocation.
-/

/-- C8: processing a pong frame leaves the client state entirely
unchanged — in particular nothing is appended to the event log and no
registered handler (subscriber or one-shot waiter) is invoked. -/
theorem pong_frames_invisible (s : ClientState) (f : Frame)
    (h : f.type = some "pong" ∨ f.command = some "pong") :
    step s (.wsMessage f) = s := by
  have h1 : handleMessage s f = s := by
    rw [handleMessage, if_pos h]
  simp [step, h1]

/-- Witness for C8 at the freshly connected state and the concrete
`{ type: "pong" }` frame. -/
theorem pong_frames_invisible_witness :
    step connectedState (.wsMessage pongFrame) = connectedState :=
  pong_frames_invisible connectedState pongFrame (Or.inl rfl)

/-!
Claim C5.  Sending, while connected, a command whose identifier is
absent from the static command-to-response-tag table (e.g. the heartbeat
ping) resolves the returned promise immediately with the synthetic
`{ success: true }` acknowledgment: the frame is transmitted, but no
waiter enters the handler map and no response timer is scheduled, so the
result does not depend on the server ever replying.
-/

/-- C5: an unmapped command transmits and resolves at once with
`successAck`, registering no waiter and no timer. -/
theorem unmapped_command_resolves_immediately (s : ClientState) (msg : Frame)
    (c : String) (reqId : Nat)
    (hws : s.ws = some WSReady.OPEN)
    (hcmd : msg.command = some c)
    (hun : getResponseType c = none) :
    lookupPromise (step s (.sendCall msg reqId)).promises reqId
        = some (.resolved .successAck) ∧
    (step s (.sendCall msg reqId)).messageHandlers = s.messageHandlers ∧
    (step s (.sendCall msg reqId)).pendingTimeouts = s.pendingTimeouts ∧
    (step s (.sendCall msg reqId)).sent = msg :: s.sent := by
  by_cases hc : c = "ping" <;>
    refine ⟨?_, ?_, ?_, ?_⟩ <;>
      simp [step, sendMessage, hws, hcmd, hun, hc, lookupPromise_settle_fresh]

/-- Witness for C5: the heartbeat ping command at the freshly connected
state. -/
theorem unmapped_command_resolves_immediately_witness :
    lookupPromise (step connectedState (.sendCall pingCmd 0)).promises 0
        = some (.resolved .successAck) ∧
    (step connectedState (.sendCall pingCmd 0)).messageHandlers
        = connectedState.messageHandlers ∧
    (step connectedState (.sendCall pingCmd 0)).pendingTimeouts
        = connectedState.pendingTimeouts ∧
    (step connectedState (.sendCall pingCmd 0)).sent
        = pingCmd :: connectedState.sent :=
  unmapped_command_resolves_immediately connectedState pingCmd "ping" 0
    rfl rfl rfl

/-!
Claim C6.  `disconnect()` (graceful, caller-initiated closure) cancels
the reconnect timer, stops the heartbeat, resets the attempt counter and
closes with code 1000, and the resulting close event never schedules a
reconnect; every close with a code other than 1000 while attempts remain
under the cap schedules one.
-/

/-- C6: `disconnect()` leaves no reconnect timer, no heartbeat and a
zero attempt counter, and the code-1000 close it triggers schedules
nothing; a close with code 1000 never schedules a reconnect from any
state, while a close with any other code under the attempt cap schedules
one with the backoff delay. -/
theorem graceful_close_suppresses_reconnect (s : ClientState) (code : Nat)
    (reason : String) :
    ((step s .disconnectCall).reconnectTimeout = none ∧
     (step s .disconnectCall).pingInterval = false ∧
     (step s .disconnectCall).reconnectAttempts = 0) ∧
    (run s [.disconnectCall, .wsClose 1000 reason]).reconnectTimeout = none ∧
    (code = 1000 →
      (step s (.wsClose code reason)).reconnectTimeout = s.reconnectTimeout) ∧
    (code ≠ 1000 → s.reconnectAttempts < maxReconnectAttempts →
      (step s (.wsClose code reason)).reconnectTimeout
        = some (2 ^ s.reconnectAttempts * 1000)) := by
  refine ⟨⟨rfl, rfl, rfl⟩, ?_, ?_, ?_⟩
  · simp only [run, List.foldl_cons, List.foldl_nil, step, handleClose,
      disconnect, stopPing, addLog]
    rw [if_neg (by simp), if_neg (by decide)]
  · intro h
    subst h
    simp only [step, handleClose, stopPing, addLog]
    rw [if_neg (by simp)]
    split_ifs <;> rfl
  · intro h1 h2
    simp only [step, handleClose, stopPing, addLog]
    rw [if_pos ⟨h1, h2⟩]

/-- Witness for C6: the disconnect facts at the connected state, the
graceful close scheduling nothing, and an abnormal close (code 1006)
scheduling the 1000 ms backoff. -/
theorem graceful_close_suppresses_reconnect_witness :
    (step connectedState .disconnectCall).reconnectTimeout = none ∧
    (run connectedState [.disconnectCall, .wsClose 1000 ""]).reconnectTimeout
        = none ∧
    (step connectedState (.wsClose 1000 "")).reconnectTimeout
        = connectedState.reconnectTimeout ∧
    (step connectedState (.wsClose 1006 "")).reconnectTimeout = some 1000 :=
  ⟨(graceful_close_suppresses_reconnect connectedState 1000 "").1.1,
   (graceful_close_suppresses_reconnect connectedState 1000 "").2.1,
   (graceful_close_suppresses_reconnect connectedState 1000 "").2.2.1 rfl,
   ((graceful_close_suppresses_reconnect connectedState 1006 "").2.2.2
      (by decide) (by decide)).trans (by rfl)⟩

/-!
Claim C7.  The reconnection policy: an abnormal close with attempts
under the cap schedules a reconnect with delay `2 ^ attempt * 1000` ms,
each firing of the reconnect timer increments the attempt counter, and
once the counter has reached 5 the next close reports the terminal
connection error and schedules no further attempt.
-/

/-- C7: backoff delay law, counter increment on each try, and the
terminal failure once the counter reaches the cap of 5. -/
theorem reconnect_backoff_and_cap (s : ClientState) (code : Nat)
    (reason : String) :
    (code ≠ 1000 → s.reconnectAttempts < maxReconnectAttempts →
      (step s (.wsClose code reason)).reconnectTimeout
        = some (2 ^ s.reconnectAttempts * 1000)) ∧
    (s.reconnectTimeout ≠ none →
      (step s .reconnectFire).reconnectAttempts = s.reconnectAttempts + 1 ∧
      (step s .reconnectFire).reconnectTimeout = none) ∧
    (s.reconnectAttempts ≥ maxReconnectAttempts →
      (step s (.wsClose code reason)).connectionError
          = some "Maximum reconnection attempts reached" ∧
      (step s (.wsClose code reason)).reconnectTimeout = s.reconnectTimeout) := by
  refine ⟨?_, ?_, ?_⟩
  · intro h1 h2
    simp only [step, handleClose, stopPing, addLog]
    rw [if_pos ⟨h1, h2⟩]
  · intro h
    cases ht : s.reconnectTimeout with
    | none => exact absurd ht h
    | some d =>
        simp only [step, fireReconnectTimer, ht, connect]
        split_ifs <;> exact ⟨rfl, rfl⟩
  · intro h
    have h2 : ¬ s.reconnectAttempts < maxReconnectAttempts := Nat.not_lt.mpr h
    simp only [step, handleClose, stopPing, addLog]
    rw [if_neg (fun hx => h2 hx.2), if_pos h]
    exact ⟨rfl, rfl⟩

/-- Witness for C7: the first backoff delay from the connected state,
the counter increment when the timer scheduled by an abnormal close
fires, and the terminal error at the exhausted state. -/
theorem reconnect_backoff_and_cap_witness :
    (step connectedState (.wsClose 1006 "")).reconnectTimeout = some 1000 ∧
    (step (step connectedState (.wsClose 1006 "")) .reconnectFire).reconnectAttempts
        = 1 ∧
    (step exhaustedState (.wsClose 1006 "")).connectionError
        = some "Maximum reconnection attempts reached" ∧
    (step exhaustedState (.wsClose 1006 "")).reconnectTimeout = none :=
  ⟨((reconnect_backoff_and_cap connectedState 1006 "").1 (by decide)
      (by decide)).trans (by rfl),
   (((reconnect_backoff_and_cap (step connectedState (.wsClose 1006 "")) 1006
      "").2.1 (by decide)).1).trans (by rfl),
   ((reconnect_backoff_and_cap exhaustedState 1006 "").2.2 (by decide)).1,
   (((reconnect_backoff_and_cap exhaustedState 1006 "").2.2 (by decide)).2).trans
     (by rfl)⟩

/-!
Claim C4.  A command with a mapped response tag whose reply does not
arrive within the 10-second window rejects with the timeout error, and
the firing timer removes the waiter, so a frame with the same tag
arriving afterwards does not resolve the already-timed-out promise.
-/

/-- C4: after `send` and a firing of its 10-second timer with no reply
in between, the promise is rejected with "Request timeout" and the
waiter is gone from the handler map; a frame with the expected tag
arriving after that leaves the promise rejected (it resolves nothing). -/
theorem request_timeout_removes_waiter (s : ClientState) (cmd f : Frame)
    (c rt : String) (reqId : Nat)
    (hws : s.ws = some WSReady.OPEN)
    (hcmd : cmd.command = some c) (hping : c ≠ "ping")
    (hrt : getResponseType c = some rt)
    (hft : f.type = some rt) :
    lookupPromise
        (run s [.sendCall cmd reqId, .sendTimerFire reqId rt]).promises reqId
      = some (.rejected "Request timeout") ∧
    mapHas (run s [.sendCall cmd reqId, .sendTimerFire reqId rt]).messageHandlers
        rt = false ∧
    lookupPromise
        (run s [.sendCall cmd reqId, .sendTimerFire reqId rt,
          .wsMessage f]).promises reqId
      = some (.rejected "Request timeout") := by
  refine ⟨?_, ?_, ?_⟩ <;>
    simp [run, step, sendMessage, fireSendTimer, handleMessage, dispatchHandler,
      logWellKnown, hws, hcmd, hping, hrt, hft, mapHas_mapSet_self,
      mapHas_mapDelete_self, mapGet_mapDelete_self, lookupPromise_settle_fresh]
  split_ifs <;> simp [lookupPromise_settle_fresh]

/-- Witness for C4: a `single_shot` command from the connected state
whose `shot_result` reply arrives only after the timer fired. -/
theorem request_timeout_removes_waiter_witness :
    lookupPromise
        (run connectedState [.sendCall shotCmd 0,
          .sendTimerFire 0 "shot_result"]).promises 0
      = some (.rejected "Request timeout") ∧
    mapHas (run connectedState [.sendCall shotCmd 0,
        .sendTimerFire 0 "shot_result"]).messageHandlers "shot_result" = false ∧
    lookupPromise
        (run connectedState [.sendCall shotCmd 0, .sendTimerFire 0 "shot_result",
          .wsMessage shotFrame]).promises 0
      = some (.rejected "Request timeout") :=
  request_timeout_removes_waiter connectedState shotCmd shotFrame "single_shot"
    "shot_result" 0 rfl rfl (by decide) rfl rfl

/-!
Claim C1.  The spec says the close handler rejects every outstanding
request with a connection-lost error and clears its waiter, leaving no
request pending once the close event is processed.  The `onclose` code
never touches `messageHandlers` or any promise: an outstanding request
survives the close still pending, and only its own 10-second timer later
settles it — with the timeout error, not a connection-lost one.
-/

/-- C1 counterexample: one `status` request is outstanding when the
transport closes abnormally (code 1006); after the close event is fully
processed the request's promise is still pending and its waiter is still
registered — nothing was rejected with a connection-lost error. -/
theorem close_leaves_request_pending_cex :
    lookupPromise c1State.promises 0 = some .pending ∧
    mapGet c1State.messageHandlers "status" = some (.oneShot 0 "status") :=
  ⟨rfl, rfl⟩

/-- C1 amended: the close handler leaves every outstanding waiter and
its pending promise untouched; the request settles only when its own
10-second timer fires, rejecting with "Request timeout". -/
theorem close_preserves_pending_requests (s : ClientState) (code : Nat)
    (reason : String) (reqId : Nat) (rt : String)
    (hhand : mapGet s.messageHandlers rt = some (.oneShot reqId rt))
    (hpend : lookupPromise s.promises reqId = some .pending)
    (htimer : (reqId, rt) ∈ s.pendingTimeouts) :
    lookupPromise (step s (.wsClose code reason)).promises reqId
        = some .pending ∧
    mapGet (step s (.wsClose code reason)).messageHandlers rt
        = some (.oneShot reqId rt) ∧
    lookupPromise
        (run s [.wsClose code reason, .sendTimerFire reqId rt]).promises reqId
      = some (.rejected "Request timeout") := by
  have hcp := handleClose_preserves s code reason
  have hstep : step s (.wsClose code reason) = handleClose s code reason := rfl
  refine ⟨?_, ?_, ?_⟩
  · rw [hstep, hcp.2.1]
    exact hpend
  · rw [hstep, hcp.1]
    exact hhand
  · have h1 : (handleClose s code reason).pendingTimeouts = s.pendingTimeouts :=
      hcp.2.2.1
    simp only [run, List.foldl_cons, List.foldl_nil, step]
    simp [fireSendTimer, h1, htimer, mapHas, hcp.1, hhand,
      lookupPromise_settleList, hcp.2.1, hpend, settleOne]

/-- Witness for C1's amended statement at the state with one
outstanding `status` request. -/
theorem close_preserves_pending_requests_witness :
    lookupPromise (step c1Pre (.wsClose 1006 "network error")).promises 0
        = some .pending ∧
    mapGet (step c1Pre (.wsClose 1006 "network error")).messageHandlers
        "status" = some (.oneShot 0 "status") ∧
    lookupPromise
        (run c1Pre [.wsClose 1006 "network error",
          .sendTimerFire 0 "status"]).promises 0
      = some (.rejected "Request timeout") :=
  close_preserves_pending_requests c1Pre 1006 "network error" 0 "status"
    rfl rfl (by decide)

/-!
Claim C2.  The spec says a frame whose tag matches both a pending
request and a previously registered persistent subscriber is delivered
to both.  `messageHandlers` is a single map with one handler per tag and
`sendMessage` installs its one-shot waiter with `Map.set`, overwriting
the subscriber; `onmessage` then invokes only that single handler, so
the frame resolves the request and the subscriber receives nothing.
-/

/-- C2 counterexample: a persistent `status` subscriber (id 7) is
registered, then a `status` command is sent, then the `status` frame
arrives: the promise resolves with the payload but the subscriber is
never invoked — the two deliveries do not both happen. -/
theorem frame_not_delivered_to_subscriber_cex :
    lookupPromise c2State.promises 0
        = some (.resolved (.payload statusFrame)) ∧
    c2State.subscriberCalls = [] :=
  ⟨rfl, rfl⟩

/-- C2 amended: when a command is sent while a persistent subscriber is
registered under its expected response tag, the one-shot waiter
overwrites the subscriber's map entry; the matching frame then resolves
the pending request only, and no subscriber handler is invoked. -/
theorem oneshot_overwrites_subscriber (s : ClientState) (t c : String)
    (sid reqId : Nat) (cmd f : Frame)
    (hws : s.ws = some WSReady.OPEN)
    (hcmd : cmd.command = some c) (hping : c ≠ "ping")
    (hrt : getResponseType c = some t)
    (hft : f.type = some t)
    (hnp : ¬ (f.type = some "pong" ∨ f.command = some "pong")) :
    mapGet (run s [.subscribeCall t sid,
        .sendCall cmd reqId]).messageHandlers t = some (.oneShot reqId t) ∧
    lookupPromise (run s [.subscribeCall t sid, .sendCall cmd reqId,
        .wsMessage f]).promises reqId = some (.resolved (.payload f)) ∧
    (run s [.subscribeCall t sid, .sendCall cmd reqId,
        .wsMessage f]).subscriberCalls = s.subscriberCalls := by
  have hnp' : ¬ (t = "pong" ∨ f.command = some "pong") := by
    simpa [hft] using hnp
  refine ⟨?_, ?_, ?_⟩ <;>
    simp [run, step, subscribe, sendMessage, handleMessage, dispatchHandler,
      logWellKnown, hws, hcmd, hping, hrt, hft, hnp', mapGet_mapSet_self,
      lookupPromise_settle_fresh]

/-- Witness for C2's amended statement: the spec's own `status` example
at the connected state with subscriber id 7. -/
theorem oneshot_overwrites_subscriber_witness :
    mapGet (run connectedState [.subscribeCall "status" 7,
        .sendCall statusCmd 0]).messageHandlers "status"
      = some (.oneShot 0 "status") ∧
    lookupPromise (run connectedState [.subscribeCall "status" 7,
        .sendCall statusCmd 0, .wsMessage statusFrame]).promises 0
      = some (.resolved (.payload statusFrame)) ∧
    (run connectedState [.subscribeCall "status" 7, .sendCall statusCmd 0,
        .wsMessage statusFrame]).subscriberCalls
      = connectedState.subscriberCalls :=
  oneshot_overwrites_subscriber connectedState "status" "status" 7 0
    statusCmd statusFrame rfl rfl (by decide) rfl rfl (by decide)

/-! Helper lemmas for the stranding invariant of claim C3. -/

theorem hasWaiterFor_false_iff (m : List (String × Handler)) (reqId : Nat) :
    hasWaiterFor m reqId = false ↔ ∀ p ∈ m, isWaiterFor reqId p.2 = false := by
  simp [hasWaiterFor]

theorem hasWaiterFor_mapDelete (m : List (String × Handler)) (k : String)
    (reqId : Nat) (h : hasWaiterFor m reqId = false) :
    hasWaiterFor (mapDelete m k) reqId = false := by
  rw [hasWaiterFor_false_iff] at h ⊢
  intro p hp
  exact h p (List.mem_of_mem_filter hp)

theorem hasWaiterFor_mapSet_subscriber (m : List (String × Handler))
    (k : String) (sid reqId : Nat) (h : hasWaiterFor m reqId = false) :
    hasWaiterFor (mapSet m k (.subscriber sid)) reqId = false := by
  rw [hasWaiterFor_false_iff] at h ⊢
  intro p hp
  rcases List.mem_cons.mp hp with h1 | h2
  · rw [h1]
    rfl
  · exact h p (List.mem_of_mem_filter h2)

theorem hasWaiterFor_mapSet_oneShot (m : List (String × Handler)) (k : String)
    (r : Nat) (rt : String) (reqId : Nat) (h : hasWaiterFor m reqId = false)
    (hne : r ≠ reqId) :
    hasWaiterFor (mapSet m k (.oneShot r rt)) reqId = false := by
  rw [hasWaiterFor_false_iff] at h ⊢
  intro p hp
  rcases List.mem_cons.mp hp with h1 | h2
  · rw [h1]
    simpa [isWaiterFor] using hne
  · exact h p (List.mem_of_mem_filter h2)

theorem hasWaiterFor_oneShot_ne (m : List (String × Handler)) (t : String)
    (reqId r : Nat) (rt : String)
    (h : hasWaiterFor m reqId = false)
    (hg : mapGet m t = some (.oneShot r rt)) : r ≠ reqId := by
  rw [hasWaiterFor_false_iff] at h
  obtain ⟨p, hp, hp2⟩ := Option.map_eq_some'.mp hg
  have hmem := List.mem_of_find?_eq_some hp
  have := h p hmem
  rw [hp2] at this
  simpa [isWaiterFor] using this

theorem hasTimerFor_false_iff (l : List (Nat × String)) (reqId : Nat) :
    hasTimerFor l reqId = false ↔ ∀ q ∈ l, q.1 ≠ reqId := by
  simp [hasTimerFor]

theorem hasTimerFor_erase (l : List (Nat × String)) (q : Nat × String)
    (reqId : Nat) (h : hasTimerFor l reqId = false) :
    hasTimerFor (l.erase q) reqId = false := by
  rw [hasTimerFor_false_iff] at h ⊢
  intro q' hq'
  exact h q' (List.mem_of_mem_erase hq')

theorem hasTimerFor_cons (l : List (Nat × String)) (r : Nat) (rt : String)
    (reqId : Nat) (h : hasTimerFor l reqId = false) (hne : r ≠ reqId) :
    hasTimerFor ((r, rt) :: l) reqId = false := by
  rw [hasTimerFor_false_iff] at h ⊢
  intro q hq
  rcases List.mem_cons.mp hq with h1 | h2
  · rw [h1]
    exact hne
  · exact h q h2

theorem hasTimerFor_not_mem (l : List (Nat × String)) (reqId : Nat)
    (rt : String) (h : hasTimerFor l reqId = false) : (reqId, rt) ∉ l := by
  rw [hasTimerFor_false_iff] at h
  intro hmem
  exact h (reqId, rt) hmem rfl

/-- A stranded request — pending promise, no waiter in the handler map,
no scheduled response timer — stays stranded across any single event
other than a new `sendMessage` reusing the same promise id. -/
theorem stranded_step (s : ClientState) (reqId : Nat) (e : Event)
    (hpend : lookupPromise s.promises reqId = some .pending)
    (hw : hasWaiterFor s.messageHandlers reqId = false)
    (ht : hasTimerFor s.pendingTimeouts reqId = false)
    (he : ∀ m, e ≠ Event.sendCall m reqId) :
    lookupPromise (step s e).promises reqId = some .pending ∧
    hasWaiterFor (step s e).messageHandlers reqId = false ∧
    hasTimerFor (step s e).pendingTimeouts reqId = false := by
  cases e with
  | connectCall =>
      simp only [step, connect]
      split_ifs <;> exact ⟨hpend, hw, ht⟩
  | wsOpen =>
      simp only [step, handleOpen, startPing, addLog]
      split_ifs <;> exact ⟨hpend, hw, ht⟩
  | wsMessage f =>
      simp only [step]
      split_ifs with hws
      · rw [handleMessage]
        split_ifs with hpong
        · exact ⟨hpend, hw, ht⟩
        · rw [dispatchHandler]
          cases hty : f.type with
          | none => exact ⟨hpend, hw, ht⟩
          | some t =>
              simp only
              have hlw : (logWellKnown s f).messageHandlers
                  = s.messageHandlers := (logWellKnown_preserves s f).1
              rw [hlw]
              cases hg : mapGet s.messageHandlers t with
              | none => exact ⟨hpend, hw, ht⟩
              | some h =>
                  cases h with
                  | subscriber sid => exact ⟨hpend, hw, ht⟩
                  | oneShot r rt =>
                      have hr : r ≠ reqId :=
                        hasWaiterFor_oneShot_ne s.messageHandlers t reqId r rt
                          hw hg
                      refine ⟨?_, ?_, ht⟩
                      · show lookupPromise
                          (settleList (logWellKnown s f).promises r
                            (.resolved (.payload f))) reqId = some .pending
                        rw [(logWellKnown_preserves s f).2.1,
                          lookupPromise_settleList_ne _ _ _ _ (Ne.symm hr)]
                        exact hpend
                      · show hasWaiterFor
                          (mapDelete (logWellKnown s f).messageHandlers rt)
                            reqId = false
                        rw [hlw]
                        exact hasWaiterFor_mapDelete _ _ _ hw
      · exact ⟨hpend, hw, ht⟩
  | wsClose code reason =>
      obtain ⟨h1, h2, h3, _⟩ := handleClose_preserves s code reason
      have hstep : step s (.wsClose code reason) = handleClose s code reason :=
        rfl
      rw [hstep, h1, h2, h3]
      exact ⟨hpend, hw, ht⟩
  | reconnectFire =>
      simp only [step, fireReconnectTimer]
      cases hrt : s.reconnectTimeout with
      | none => exact ⟨hpend, hw, ht⟩
      | some d =>
          simp only [connect]
          split_ifs <;> exact ⟨hpend, hw, ht⟩
  | sendCall m r =>
      have hr : r ≠ reqId := by
        intro hh
        exact he m (by rw [hh])
      simp only [step, sendMessage]
      split_ifs with hcon
      · refine ⟨?_, hw, ht⟩
        rw [lookupPromise_settleList_ne _ _ _ _ (Ne.symm hr),
          lookupPromise_cons_ne _ _ _ _ (Ne.symm hr)]
        exact hpend
      · cases hc : m.command with
        | none =>
            refine ⟨?_, hw, ht⟩
            rw [lookupPromise_settleList_ne _ _ _ _ (Ne.symm hr),
              lookupPromise_cons_ne _ _ _ _ (Ne.symm hr)]
            exact hpend
        | some c =>
            simp only
            split_ifs with hping
            · cases hgr : getResponseType c with
              | none =>
                  refine ⟨?_, hw, ht⟩
                  rw [lookupPromise_settleList_ne _ _ _ _ (Ne.symm hr),
                    lookupPromise_cons_ne _ _ _ _ (Ne.symm hr)]
                  exact hpend
              | some rt =>
                  refine ⟨?_, ?_, ?_⟩
                  · rw [lookupPromise_cons_ne _ _ _ _ (Ne.symm hr)]
                    exact hpend
                  · exact hasWaiterFor_mapSet_oneShot _ _ _ _ _ hw hr
                  · exact hasTimerFor_cons _ _ _ _ ht hr
            · refine ⟨?_, hw, ht⟩
              rw [lookupPromise_settleList_ne _ _ _ _ (Ne.symm hr),
                lookupPromise_cons_ne _ _ _ _ (Ne.symm hr)]
              exact hpend
  | sendTimerFire r rt =>
      simp only [step, fireSendTimer]
      split_ifs with hmem hhas
      · have hr : r ≠ reqId := by
          intro hh
          subst hh
          exact (hasTimerFor_not_mem _ _ rt ht) hmem
        refine ⟨?_, hasWaiterFor_mapDelete _ _ _ hw,
          hasTimerFor_erase _ _ _ ht⟩
        rw [lookupPromise_settleList_ne _ _ _ _ (Ne.symm hr)]
        exact hpend
      · exact ⟨hpend, hw, hasTimerFor_erase _ _ _ ht⟩
      · exact ⟨hpend, hw, ht⟩
  | subscribeCall t sid =>
      exact ⟨hpend, hasWaiterFor_mapSet_subscriber _ _ _ _ hw, ht⟩
  | unsubscribeCall t =>
      exact ⟨hpend, hasWaiterFor_mapDelete _ _ _ hw, ht⟩
  | disconnectCall =>
      exact ⟨hpend, hw, ht⟩
  | pingFire =>
      simp only [step, firePing]
      split_ifs <;> exact ⟨hpend, hw, ht⟩

/-- A stranded request stays pending over any whole run that never
reuses its promise id. -/
theorem stranded_run (s : ClientState) (reqId : Nat) (es : List Event)
    (hpend : lookupPromise s.promises reqId = some .pending)
    (hw : hasWaiterFor s.messageHandlers reqId = false)
    (ht : hasTimerFor s.pendingTimeouts reqId = false)
    (hes : ∀ e ∈ es, ∀ m, e ≠ Event.sendCall m reqId) :
    lookupPromise (run s es).promises reqId = some .pending := by
  induction es generalizing s with
  | nil => exact hpend
  | cons e es ih =>
      have h := stranded_step s reqId e hpend hw ht
        (hes e (List.mem_cons_self e es))
      exact ih (step s e) h.1 h.2.1 h.2.2
        (fun e' he' => hes e' (List.mem_cons_of_mem e he'))

/-!
Claim C3.  The spec requires that when two `sendMessage` calls register
waiters under the same expected response tag, neither future is silently
lost: both must eventually settle.  In the code the second `Map.set`
replaces the first's waiter, and each timer callback checks only
`Map.has(responseType)`, so exactly one of the two futures settles and
the other stays pending forever.
-/

/-- C3 counterexample: two concurrent `single_shot` requests (promises 0
and 1); the `shot_result` reply arrives and both 10-second timers fire.
Promise 1 resolved, but promise 0 is still pending with no waiter and no
timer left that could ever settle it — it was silently lost. -/
theorem duplicate_tag_registration_cex :
    lookupPromise c3aState.promises 0 = some .pending ∧
    lookupPromise c3aState.promises 1
        = some (.resolved (.payload shotFrame)) ∧
    c3aState.pendingTimeouts = [] ∧
    mapGet c3aState.messageHandlers "shot_result" = none :=
  ⟨rfl, rfl, rfl, rfl⟩

/-- C3 amended: with two same-tag requests, exactly one future settles
and the other is stranded unsettled forever.  If the reply arrives
before the timers fire, the second future resolves with it and the
first stays pending; if no reply arrives, the first future's timer
rejects it with the timeout error (removing the second's waiter) and the
second stays pending.  The stranded future then remains pending over
every continuation of the run that does not reuse its promise id. -/
theorem duplicate_tag_strands_one_waiter :
    (lookupPromise c3aState.promises 1
        = some (.resolved (.payload shotFrame)) ∧
     lookupPromise c3aState.promises 0 = some .pending ∧
     hasWaiterFor c3aState.messageHandlers 0 = false ∧
     hasTimerFor c3aState.pendingTimeouts 0 = false) ∧
    (lookupPromise c3bState.promises 0 = some (.rejected "Request timeout") ∧
     lookupPromise c3bState.promises 1 = some .pending ∧
     hasWaiterFor c3bState.messageHandlers 1 = false ∧
     hasTimerFor c3bState.pendingTimeouts 1 = false) ∧
    (∀ (s : ClientState) (reqId : Nat) (es : List Event),
      lookupPromise s.promises reqId = some .pending →
      hasWaiterFor s.messageHandlers reqId = false →
      hasTimerFor s.pendingTimeouts reqId = false →
      (∀ e ∈ es, ∀ m, e ≠ Event.sendCall m reqId) →
      lookupPromise (run s es).promises reqId = some .pending) :=
  ⟨⟨rfl, rfl, rfl, rfl⟩, ⟨rfl, rfl, rfl, rfl⟩, stranded_run⟩

/-- Witness for C3's amended statement: the stranded promise 0 of the
reply-arrived scenario stays pending even across a further heartbeat
firing and another late `shot_result` frame. -/
theorem duplicate_tag_strands_one_waiter_witness :
    lookupPromise
        (run c3aState [.pingFire, .wsMessage shotFrame]).promises 0
      = some .pending :=
  duplicate_tag_strands_one_waiter.2.2 c3aState 0
    [.pingFire, .wsMessage shotFrame] rfl rfl rfl (by simp)

end CameraWS
